import Mathlib

/-!
Verification development for the directus-auth-manager repository.

The credential store (src/config.ts) and the validator (src/validator.ts)
are embedded shallowly:

* Every store operation in the source reads the whole document from disk,
  transforms it, and writes it back.  Since the file always holds the last
  written document within a process, each operation is embedded as the pure
  transformation between the document read and the document written, with
  the document passed explicitly.
* A JavaScript object with string keys is embedded as an association list
  kept in insertion order; the key-reordering JavaScript applies to
  integer-like keys affects no claim below (all are order-independent or
  relative to iteration order).
* Dynamic (untyped) JavaScript values, as produced by JSON.parse and
  consumed by property access, are embedded by the inductive type Js,
  including the undefined value; property access on null or undefined
  raises, embedded via Except.  The literal text of runtime TypeError
  messages is abstracted (the structure of the message is kept, the exact
  wording of the JavaScript engine is not reproduced).
* The network is embedded as an explicit fetch outcome: either the request
  raises (with an Error message, or a non-Error value), or a response with
  a status code and a body arrives; the body either fails JSON parsing
  (json() rejects with a message) or yields a Js value.
-/

/-- One set of Directus credentials, from the Credentials interface in
src/types.ts: a url and a token, both strings. -/
structure Credentials where
  url : String
  token : String
deriving DecidableEq, Repr

/-- The configuration document, from the Config interface in src/types.ts:
an active name (string or null) and a mapping from names to credentials.
The mapping is embedded as an association list in insertion order. -/
structure Config where
  active : Option String
  credentials : List (String × Credentials)
deriving DecidableEq, Repr

/-- Property read on a JavaScript object with string keys
(the expression obj[k]): the value at the first matching key, if any. -/
def objGet {α : Type} (l : List (String × α)) (k : String) : Option α :=
  match l with
  | [] => none
  | (k2, v) :: rest => if k2 = k then some v else objGet rest k

/-- Property write on a JavaScript object (the statement obj[k] = v):
overwrite in place when the key exists, append otherwise. -/
def objSet {α : Type} (l : List (String × α)) (k : String) (v : α) :
    List (String × α) :=
  match l with
  | [] => [(k, v)]
  | (k2, v2) :: rest =>
    if k2 = k then (k2, v) :: rest else (k2, v2) :: objSet rest k v

/-- Property removal on a JavaScript object (the statement delete obj[k]):
remove the first entry with the given key. -/
def objDelete {α : Type} (l : List (String × α)) (k : String) :
    List (String × α) :=
  match l with
  | [] => []
  | (k2, v2) :: rest =>
    if k2 = k then rest else (k2, v2) :: objDelete rest k

/-- The default empty config returned by getDefaultConfig in
src/config.ts. -/
def getDefaultConfig : Config :=
  { active := none, credentials := [] }

/-- addCredentials from src/config.ts: upsert the named entry, then, when
the mapping has exactly one key afterwards, make that name active.
(Object.keys(...).length over an object equals the list length here, since
a JavaScript object cannot hold a duplicate key.) -/
def addCredentials (name : String) (credentials : Credentials)
    (config : Config) : Config :=
  let credentials2 := objSet config.credentials name credentials
  { active := if credentials2.length = 1 then some name else config.active,
    credentials := credentials2 }

/-- removeCredentials from src/config.ts: return false without touching the
document when the name is absent; otherwise delete the entry, and, when the
removed name was active, set active to the first remaining key
(remaining[0]) or to null when none remain, then return true. -/
def removeCredentials (name : String) (config : Config) : Bool × Config :=
  if (objGet config.credentials name).isNone then
    (false, config)
  else
    let credentials2 := objDelete config.credentials name
    let active2 :=
      if config.active = some name then
        (credentials2.map Prod.fst).head?
      else config.active
    (true, { active := active2, credentials := credentials2 })

/-- setActive from src/config.ts: return false without touching the
document when the name is absent; otherwise set active to the name and
return true. -/
def setActive (name : String) (config : Config) : Bool × Config :=
  if (objGet config.credentials name).isNone then
    (false, config)
  else
    (true, { config with active := some name })

/-- getActiveCredentials from src/config.ts: null when active is falsy
(null, or the empty string) or when the active name is not a key of the
mapping; otherwise the active name paired with its credentials. -/
def getActiveCredentials (config : Config) :
    Option (String × Credentials) :=
  match config.active with
  | none => none
  | some a =>
    if a = "" then none
    else
      match objGet config.credentials a with
      | none => none
      | some c => some (a, c)

/-- One mutating call against the store. -/
inductive Op where
  | add (name : String) (credentials : Credentials)
  | remove (name : String)
  | setActive (name : String)
deriving DecidableEq, Repr

/-- The document transformation performed by one mutating call. -/
def applyOp (config : Config) (op : Op) : Config :=
  match op with
  | .add n c => addCredentials n c config
  | .remove n => (removeCredentials n config).2
  | .setActive n => (setActive n config).2

/-- Run a sequence of mutating calls from a given document. -/
def runOpsFrom (config : Config) (ops : List Op) : Config :=
  ops.foldl applyOp config

/-- Run a sequence of mutating calls from the empty document. -/
def runOps (ops : List Op) : Config :=
  runOpsFrom getDefaultConfig ops

/-- The document invariant: active is null or a key of the mapping. -/
def activeOk (config : Config) : Bool :=
  match config.active with
  | none => true
  | some a => (objGet config.credentials a).isSome

/-- Well-formedness of a document as a JavaScript runtime guarantees it:
an object cannot hold the same key twice. -/
@[reducible] def Config.WF (config : Config) : Prop :=
  (config.credentials.map Prod.fst).Nodup

/-- Dynamic JavaScript values, as produced by JSON.parse together with the
undefined value produced by reading an absent property. -/
inductive Js where
  | jsUndefined : Js
  | jsNull : Js
  | bool (b : Bool) : Js
  | num (n : Int) : Js
  | str (s : String) : Js
  | arr (elems : List Js) : Js
  | obj (fields : List (String × Js)) : Js

/-- The state of the config file on disk, as far as readConfig observes it:
absent, present with content JSON.parse rejects, or present with content
JSON.parse turns into the value j.  (The surface JSON syntax is abstracted
into the parse outcome, which is all readConfig consumes.) -/
inductive FileState where
  | absent : FileState
  | invalid (content : String) : FileState
  | valid (j : Js) : FileState

/-- The default empty document as the dynamic value readConfig returns. -/
def getDefaultConfigJs : Js :=
  Js.obj [("active", Js.jsNull), ("credentials", Js.obj [])]

/-- readConfig from src/config.ts: the default document when the file is
absent, the default document when JSON.parse throws (the catch branch), and
otherwise whatever value JSON.parse produced - the cast "as Config" checks
nothing, so the value is returned even when it is not a Config. -/
def readConfig (fs : FileState) : Js :=
  match fs with
  | .absent => getDefaultConfigJs
  | .invalid _ => getDefaultConfigJs
  | .valid j => j

/-- Whether a dynamic value has the shape of the Credentials interface of
src/types.ts: an object whose url and token fields are strings. -/
def isCredentialsShape (j : Js) : Bool :=
  match j with
  | .obj fields =>
    (match objGet fields "url" with
     | some (.str _) => true
     | _ => false)
    && (match objGet fields "token" with
        | some (.str _) => true
        | _ => false)
  | _ => false

/-- Whether a dynamic value has the shape of the Config interface of
src/types.ts: an object whose active field is null or a string and whose
credentials field is an object every value of which has the Credentials
shape. -/
def isConfigShape (j : Js) : Bool :=
  match j with
  | .obj fields =>
    (match objGet fields "active" with
     | some .jsNull => true
     | some (.str _) => true
     | _ => false)
    && (match objGet fields "credentials" with
        | some (.obj m) => m.all (fun e => isCredentialsShape e.2)
        | _ => false)
  | _ => false

/-- Whether one character list starts with another. -/
def startsWithChars : List Char → List Char → Bool
  | _, [] => true
  | [], _ :: _ => false
  | c :: cs, d :: ds => (c = d) && startsWithChars cs ds

/-- Whether one character list occurs inside another. -/
def hasSubChars : List Char → List Char → Bool
  | [], needle => needle.isEmpty
  | c :: cs, needle =>
    startsWithChars (c :: cs) needle || hasSubChars cs needle

/-- String containment, the semantics of hay.includes(needle). -/
def strContains (hay needle : String) : Bool :=
  hasSubChars hay.data needle.data

/-- The catch branch of validateCredentials in src/validator.ts applied to
the message of a caught Error: the first matching substring pattern wins,
and a message matching none is returned verbatim. -/
def classifyError (m : String) : String :=
  if strContains m "ECONNREFUSED" then
    "Connection refused - Server may be down"
  else if strContains m "ENOTFOUND" then
    "Host not found - Check the URL"
  else if strContains m "ETIMEDOUT" then
    "Connection timed out"
  else if strContains m "certificate" then
    "SSL certificate error"
  else m

/-- The non-success branch of validateCredentials in src/validator.ts: the
message starts as "HTTP status" and is overridden for 401, 403 and 404. -/
def statusMessage (status : Nat) : String :=
  if status = 401 then "Unauthorized - Invalid or expired token"
  else if status = 403 then "Forbidden - Token lacks required permissions"
  else if status = 404 then "Not found - Check if the URL is correct"
  else "HTTP " ++ toString status

/-- response.ok of the fetch API: the status lies in 200..299. -/
def statusOk (status : Nat) : Bool :=
  200 ≤ status && status ≤ 299

/-- JavaScript property access v.k: raises a TypeError on null and
undefined, yields the field (or undefined when absent) on an object, and
yields undefined on every other value (primitives and arrays carry no own
property named data, id, email, first_name or last_name). -/
def Js.getProp (v : Js) (k : String) : Except String Js :=
  match v with
  | .jsUndefined =>
    .error ("Cannot read properties of undefined (reading " ++ k ++ ")")
  | .jsNull =>
    .error ("Cannot read properties of null (reading " ++ k ++ ")")
  | .obj fields => .ok ((objGet fields k).getD .jsUndefined)
  | _ => .ok .jsUndefined

/-- The user record built in the success branch of validateCredentials;
each field is a dynamic value because the source never checks that the
fields exist (an absent field yields undefined). -/
structure UserJs where
  id : Js
  email : Js
  first_name : Js
  last_name : Js

/-- The ValidationResult interface of src/types.ts. -/
structure ValidationResult where
  name : String
  success : Bool
  message : String
  user : Option UserJs

/-- The body extraction of the success branch of validateCredentials:
data.data, then user.id, user.email, user.first_name, user.last_name, each
access able to raise. -/
def extractUser (data : Js) : Except String UserJs :=
  match data.getProp "data" with
  | .error e => .error e
  | .ok user =>
    match user.getProp "id" with
    | .error e => .error e
    | .ok id =>
      match user.getProp "email" with
      | .error e => .error e
      | .ok email =>
        match user.getProp "first_name" with
        | .error e => .error e
        | .ok fn =>
          match user.getProp "last_name" with
          | .error e => .error e
          | .ok ln => .ok { id := id, email := email,
                            first_name := fn, last_name := ln }

/-- The outcome of reading the response body: response.json() either
rejects with an Error message or yields a dynamic value. -/
inductive BodyOutcome where
  | invalid (message : String) : BodyOutcome
  | parsed (j : Js) : BodyOutcome

/-- The outcome of the fetch call: either it raises (with an Error carrying
a message, or a thrown non-Error value carrying none), or a response with a
status and a body arrives. -/
inductive FetchOutcome where
  | throws (errMsg : Option String) : FetchOutcome
  | response (status : Nat) (body : BodyOutcome) : FetchOutcome

/-- validateCredentials from src/validator.ts, as a function of the name,
the credentials and the fetch outcome.  A non-success status yields the
status message; a success status reads the body and extracts the user;
every raise (fetch itself, json(), or a property access) lands in the catch
branch, which classifies an Error message by substring and answers
"Unknown error" for a thrown non-Error value. -/
def validateCredentials (name : String) (credentials : Credentials)
    (outcome : FetchOutcome) : ValidationResult :=
  match outcome with
  | .throws none =>
    { name := name, success := false, message := "Unknown error",
      user := none }
  | .throws (some m) =>
    { name := name, success := false, message := classifyError m,
      user := none }
  | .response status body =>
    if statusOk status = false then
      { name := name, success := false, message := statusMessage status,
        user := none }
    else
      match body with
      | .invalid m =>
        { name := name, success := false, message := classifyError m,
          user := none }
      | .parsed j =>
        match extractUser j with
        | .error e =>
          { name := name, success := false, message := classifyError e,
            user := none }
        | .ok u =>
          { name := name, success := true, message := "Valid",
            user := some u }

/-- validateAllCredentials from src/validator.ts: Object.entries iterates
the mapping in order, each entry is validated against its own fetch
outcome (env), and Promise.all collects the results positionally. -/
def validateAllCredentials (env : String → Credentials → FetchOutcome)
    (credentialsMap : List (String × Credentials)) :
    List ValidationResult :=
  credentialsMap.map (fun e => validateCredentials e.1 e.2 (env e.1 e.2))

theorem objGet_objSet_self {α : Type} (l : List (String × α)) (k : String) (v : α) :
    objGet (objSet l k v) k = some v := by
  induction l with
  | nil => simp [objSet, objGet]
  | cons hd tl ih =>
    obtain ⟨k2, v2⟩ := hd
    by_cases h : k2 = k
    · simp [objSet, objGet, h]
    · simp [objSet, objGet, h, ih]

theorem objGet_objSet_ne {α : Type} (l : List (String × α)) (k a : String) (v : α)
    (h : a ≠ k) : objGet (objSet l k v) a = objGet l a := by
  induction l with
  | nil => simp [objSet, objGet, Ne.symm h]
  | cons hd tl ih =>
    obtain ⟨k2, v2⟩ := hd
    by_cases h2 : k2 = k
    · subst h2
      simp [objSet, objGet, Ne.symm h]
    · by_cases h3 : k2 = a <;> simp [objSet, objGet, h, h2, h3, ih]

theorem objGet_objSet_isSome {α : Type} (l : List (String × α)) (k a : String) (v : α)
    (h : (objGet l a).isSome = true) : (objGet (objSet l k v) a).isSome = true := by
  by_cases hak : a = k
  · subst hak
    rw [objGet_objSet_self]
    rfl
  · rw [objGet_objSet_ne l k a v hak]
    exact h

theorem objGet_objDelete_ne {α : Type} (l : List (String × α)) (k a : String)
    (h : a ≠ k) : objGet (objDelete l k) a = objGet l a := by
  induction l with
  | nil => rfl
  | cons hd tl ih =>
    obtain ⟨k2, v2⟩ := hd
    by_cases h2 : k2 = k
    · subst h2
      simp [objDelete, objGet, Ne.symm h]
    · by_cases h3 : k2 = a <;> simp [objDelete, objGet, h, h2, h3, ih]

theorem objGet_eq_none_of_not_mem {α : Type} (l : List (String × α)) (k : String)
    (h : k ∉ l.map Prod.fst) : objGet l k = none := by
  induction l with
  | nil => rfl
  | cons hd tl ih =>
    obtain ⟨k2, v2⟩ := hd
    simp only [List.map_cons, List.mem_cons] at h
    push_neg at h
    simp [objGet, Ne.symm h.1, ih h.2]

theorem objGet_objDelete_self {α : Type} (l : List (String × α)) (k : String)
    (hnd : (l.map Prod.fst).Nodup) : objGet (objDelete l k) k = none := by
  induction l with
  | nil => rfl
  | cons hd tl ih =>
    obtain ⟨k2, v2⟩ := hd
    simp only [List.map_cons, List.nodup_cons] at hnd
    by_cases h2 : k2 = k
    · subst h2
      simpa [objDelete] using objGet_eq_none_of_not_mem tl k2 hnd.1
    · simp [objDelete, objGet, h2, ih hnd.2]

theorem objGet_head_key {α : Type} (l : List (String × α)) (k : String)
    (h : (l.map Prod.fst).head? = some k) : (objGet l k).isSome = true := by
  cases l with
  | nil => simp at h
  | cons hd tl =>
    obtain ⟨k2, v2⟩ := hd
    simp only [List.map_cons, List.head?_cons, Option.some.injEq] at h
    subst h
    simp [objGet]

theorem objSet_length_of_absent {α : Type} (l : List (String × α)) (k : String) (v : α)
    (h : objGet l k = none) : (objSet l k v).length = l.length + 1 := by
  induction l with
  | nil => rfl
  | cons hd tl ih =>
    obtain ⟨k2, v2⟩ := hd
    by_cases h2 : k2 = k
    · simp [objGet, h2] at h
    · simp only [objGet, if_neg h2] at h
      simp [objSet, h2, ih h]

theorem activeOk_applyOp (config : Config) (op : Op)
    (h : activeOk config = true) : activeOk (applyOp config op) = true := by
  cases op with
  | add n c =>
    show activeOk (addCredentials n c config) = true
    simp only [addCredentials]
    by_cases hl : (objSet config.credentials n c).length = 1
    · simp [activeOk, hl, objGet_objSet_self]
    · simp only [hl, if_false, if_neg]
      cases hA : config.active with
      | none => simp [activeOk]
      | some a =>
        have h2 : (objGet config.credentials a).isSome = true := by
          unfold activeOk at h
          rw [hA] at h
          exact h
        simp [activeOk, objGet_objSet_isSome _ _ _ _ h2]
  | remove n =>
    show activeOk (removeCredentials n config).2 = true
    simp only [removeCredentials]
    by_cases habs : (objGet config.credentials n).isNone = true
    · simpa [habs] using h
    · by_cases hact : config.active = some n
      · simp only [habs, if_false, if_neg, hact, if_pos, if_true]
        cases hh : ((objDelete config.credentials n).map Prod.fst).head? with
        | none => simp [activeOk, hact, hh, habs]
        | some k => simp [activeOk, hact, hh, habs, objGet_head_key _ _ hh]
      · cases hA : config.active with
        | none => simp [activeOk, habs, hact]
        | some a =>
          have han : a ≠ n := by
            rintro rfl
            exact hact hA
          have h2 : (objGet config.credentials a).isSome = true := by
            unfold activeOk at h
            rw [hA] at h
            exact h
          simp [activeOk, habs, hact, hA, han, objGet_objDelete_ne _ _ _ han, h2]
  | setActive n =>
    show activeOk (setActive n config).2 = true
    simp only [setActive]
    by_cases habs : (objGet config.credentials n).isNone = true
    · simpa [habs] using h
    · have h2 : (objGet config.credentials n).isSome = true := by
        cases hg : objGet config.credentials n with
        | none => simp [hg] at habs
        | some v => simp
      simp [activeOk, habs, h2]

theorem activeOk_runOpsFrom (ops : List Op) (config : Config)
    (h : activeOk config = true) : activeOk (runOpsFrom config ops) = true := by
  induction ops generalizing config with
  | nil => exact h
  | cons op rest ih => exact ih (applyOp config op) (activeOk_applyOp config op h)

/-- Claim C1: starting from the empty document, after every sequence of
addCredentials, removeCredentials and setActive calls, the document has an
active that is either null or a key present in the credentials mapping
(every prefix of a sequence is itself a sequence, so the invariant holds at
every observable point). -/
theorem store_active_invariant (ops : List Op) :
    activeOk (runOps ops) = true :=
  activeOk_runOpsFrom ops getDefaultConfig rfl

/-- Claim C4: addCredentials performs an upsert - afterwards the mapping
binds the name to the given credentials; when exactly one credential set
exists after the upsert that name becomes active, and otherwise active is
unchanged; in particular adding to an empty document activates the new
name, and adding a new second entry leaves active unchanged. -/
theorem addCredentials_spec (config : Config) (name : String)
    (credentials : Credentials) (hwf : config.WF) :
    objGet (addCredentials name credentials config).credentials name
      = some credentials
    ∧ ((addCredentials name credentials config).credentials.length = 1 →
        (addCredentials name credentials config).active = some name)
    ∧ ((addCredentials name credentials config).credentials.length ≠ 1 →
        (addCredentials name credentials config).active = config.active)
    ∧ (config.credentials = [] →
        (addCredentials name credentials config).active = some name)
    ∧ (config.credentials.length = 1 →
        objGet config.credentials name = none →
        (addCredentials name credentials config).active = config.active) := by
  refine ⟨objGet_objSet_self _ _ _, ?_, ?_, ?_, ?_⟩
  · intro hl
    simp only [addCredentials] at hl ⊢
    simp [hl]
  · intro hl
    simp only [addCredentials] at hl ⊢
    simp [hl]
  · intro hempty
    simp [addCredentials, hempty, objSet]
  · intro hlen habs
    have h2 : (objSet config.credentials name credentials).length = 2 := by
      rw [objSet_length_of_absent _ _ _ habs, hlen]
    simp [addCredentials, h2]

/-- Witness for claim C4: adding a new second entry to a one-entry
document leaves the previously active name active. -/
theorem addCredentials_spec_witness :
    (addCredentials "b" { url := "u2", token := "t2" }
        { active := some "a",
          credentials := [("a", { url := "u1", token := "t1" })] }).active
      = some "a" := by
  have h := addCredentials_spec
      { active := some "a",
        credentials := [("a", { url := "u1", token := "t1" })] }
      "b" { url := "u2", token := "t2" } (by decide)
  exact h.2.2.2.2 (by decide) (by decide)

/-- Claim C5: setActive returns true and sets active to the name when the
name is a stored key, and returns false leaving the whole document
unchanged when it is not. -/
theorem setActive_spec (config : Config) (name : String) :
    ((objGet config.credentials name).isSome = true →
      setActive name config =
        (true, { active := some name, credentials := config.credentials }))
    ∧ (objGet config.credentials name = none →
      setActive name config = (false, config)) := by
  constructor
  · intro h
    rcases hg : objGet config.credentials name with _ | v
    · rw [hg] at h
      simp at h
    · simp [setActive, hg]
  · intro h
    simp [setActive, h]

/-- Witness for claim C5: activating a stored key succeeds, and activating
an absent key leaves the document unchanged. -/
theorem setActive_spec_witness :
    setActive "a"
        { active := none,
          credentials := [("a", { url := "u", token := "t" })] } =
      (true, { active := some "a",
               credentials := [("a", { url := "u", token := "t" })] })
    ∧ setActive "b"
        { active := none,
          credentials := [("a", { url := "u", token := "t" })] } =
      (false, { active := none,
                credentials := [("a", { url := "u", token := "t" })] }) :=
  ⟨(setActive_spec
      { active := none, credentials := [("a", { url := "u", token := "t" })] }
      "a").1 (by decide),
   (setActive_spec
      { active := none, credentials := [("a", { url := "u", token := "t" })] }
      "b").2 (by decide)⟩

/-- Claim C9: getActiveCredentials returns null when active is null and
when active names a key absent from the mapping, and a non-null result
always pairs the active name with the value stored at that key. -/
theorem getActiveCredentials_spec (config : Config) :
    (config.active = none → getActiveCredentials config = none)
    ∧ (∀ a, config.active = some a → objGet config.credentials a = none →
        getActiveCredentials config = none)
    ∧ (∀ n c, getActiveCredentials config = some (n, c) →
        config.active = some n ∧ objGet config.credentials n = some c) := by
  refine ⟨?_, ?_, ?_⟩
  · intro h
    simp [getActiveCredentials, h]
  · intro a hA hg
    by_cases he : a = ""
    · simp [getActiveCredentials, hA, he]
    · simp [getActiveCredentials, hA, he, hg]
  · intro n c h
    rcases hA : config.active with _ | a
    · simp [getActiveCredentials, hA] at h
    · by_cases he : a = ""
      · simp [getActiveCredentials, hA, he] at h
      · rcases hg : objGet config.credentials a with _ | v
        · simp [getActiveCredentials, hA, he, hg] at h
        · simp only [getActiveCredentials, hA, he, hg, if_neg he,
            Option.some.injEq, Prod.mk.injEq] at h
          obtain ⟨rfl, rfl⟩ := h
          exact ⟨rfl, hg⟩

/-- Witness for claim C9: a dangling active pointer yields null. -/
theorem getActiveCredentials_spec_witness :
    getActiveCredentials { active := some "x", credentials := [] } = none :=
  (getActiveCredentials_spec
    { active := some "x", credentials := [] }).2.1 "x" rfl rfl

/-- Claim C2: removeCredentials returns false and leaves the document
untouched when the name is absent; when present it returns true, removes
exactly that entry, and, when the removed name was active, the new active
is null when nothing remains and one of the remaining keys otherwise. -/
theorem removeCredentials_spec (config : Config) (name : String)
    (hwf : config.WF) :
    (objGet config.credentials name = none →
      removeCredentials name config = (false, config))
    ∧ (∀ cr, objGet config.credentials name = some cr →
        (removeCredentials name config).1 = true
        ∧ objGet (removeCredentials name config).2.credentials name = none
        ∧ (∀ k2, k2 ≠ name →
            objGet (removeCredentials name config).2.credentials k2 =
              objGet config.credentials k2)
        ∧ (config.active = some name →
            ((removeCredentials name config).2.credentials = [] →
              (removeCredentials name config).2.active = none)
            ∧ ((removeCredentials name config).2.credentials ≠ [] →
                ∃ k, (removeCredentials name config).2.active = some k
                  ∧ (objGet (removeCredentials name config).2.credentials k).isSome
                      = true))) := by
  constructor
  · intro h
    simp [removeCredentials, h]
  · intro cr hcr
    have hfalse : (objGet config.credentials name).isNone = false := by
      rw [hcr]
      rfl
    have hr : removeCredentials name config =
        (true,
          { active :=
              if config.active = some name then
                ((objDelete config.credentials name).map Prod.fst).head?
              else config.active,
            credentials := objDelete config.credentials name }) := by
      simp [removeCredentials, hfalse]
    refine ⟨by rw [hr], ?_, ?_, ?_⟩
    · rw [hr]
      exact objGet_objDelete_self _ _ hwf
    · intro k2 hk2
      rw [hr]
      exact objGet_objDelete_ne _ _ _ hk2
    · intro hact
      have hcred : (removeCredentials name config).2.credentials
          = objDelete config.credentials name := by
        rw [hr]
      have hactive : (removeCredentials name config).2.active
          = ((objDelete config.credentials name).map Prod.fst).head? := by
        rw [hr]
        simp [hact]
      constructor
      · intro hnil
        rw [hcred] at hnil
        rw [hactive, hnil]
        rfl
      · intro hne
        rw [hcred] at hne
        rw [hactive, hcred]
        cases hd : objDelete config.credentials name with
        | nil => exact absurd hd hne
        | cons x rest =>
          obtain ⟨k1, v1⟩ := x
          exact ⟨k1, by simp, by simp [objGet]⟩

/-- Witness for claim C2: removing the active entry of a two-entry
document succeeds. -/
theorem removeCredentials_spec_witness :
    (removeCredentials "a"
        { active := some "a",
          credentials := [("a", { url := "u1", token := "t1" }),
            ("b", { url := "u2", token := "t2" })] }).1 = true :=
  ((removeCredentials_spec
      { active := some "a",
        credentials := [("a", { url := "u1", token := "t1" }),
          ("b", { url := "u2", token := "t2" })] }
      "a" (by decide)).2 { url := "u1", token := "t1" } (by decide)).1

/-- Claim C3 counterexample: the file content [] is valid JSON but does not
have the expected Config structure, yet readConfig returns the parsed
array rather than the default empty document (the shape check separates
the returned value from the default, which does have the Config shape):
the cast "as Config" in the source validates nothing. -/
theorem readConfig_counterexample :
    readConfig (FileState.valid (Js.arr [])) = Js.arr []
    ∧ isConfigShape (Js.arr []) = false
    ∧ isConfigShape getDefaultConfigJs = true :=
  ⟨rfl, rfl, by decide⟩

/-- Claim C3 (amended): readConfig is total (it never raises) and returns
the default empty document exactly when the file is absent or its content
is not valid JSON; content that is valid JSON is returned as parsed, with
no validation against the expected structure. -/
theorem readConfig_amended_spec :
    readConfig FileState.absent = getDefaultConfigJs
    ∧ (∀ content, readConfig (FileState.invalid content) = getDefaultConfigJs)
    ∧ (∀ j, readConfig (FileState.valid j) = j) :=
  ⟨rfl, fun _ => rfl, fun _ => rfl⟩

theorem startsWithChars_correct (hay needle : List Char) :
    startsWithChars hay needle = true ↔ needle <+: hay := by
  induction hay generalizing needle with
  | nil =>
    cases needle with
    | nil => simp [startsWithChars]
    | cons d ds => simp [startsWithChars]
  | cons c cs ih =>
    cases needle with
    | nil => simp [startsWithChars]
    | cons d ds =>
      rw [List.cons_prefix_cons]
      simp only [startsWithChars, Bool.and_eq_true, decide_eq_true_eq, ih]
      constructor
      · rintro ⟨h1, h2⟩
        exact ⟨h1.symm, h2⟩
      · rintro ⟨h1, h2⟩
        exact ⟨h1.symm, h2⟩

theorem hasSubChars_correct (hay needle : List Char) :
    hasSubChars hay needle = true ↔ needle <:+: hay := by
  induction hay with
  | nil =>
    cases needle with
    | nil => simp [hasSubChars]
    | cons d ds => simp [hasSubChars]
  | cons c cs ih =>
    simp [hasSubChars, startsWithChars_correct, ih, List.infix_cons_iff]

theorem strContains_correct (hay needle : String) :
    strContains hay needle = true ↔ needle.data <:+: hay.data :=
  hasSubChars_correct hay.data needle.data

theorem validateCredentials_name (name : String) (credentials : Credentials)
    (outcome : FetchOutcome) :
    (validateCredentials name credentials outcome).name = name := by
  rcases outcome with m | ⟨s, b⟩
  · rcases m with _ | m <;> rfl
  · by_cases hs : statusOk s = false
    · simp [validateCredentials, hs]
    · rcases b with m | j
      · simp [validateCredentials, hs]
      · rcases hx : extractUser j with e | u <;>
          simp [validateCredentials, hs, hx]

/-- Claim C6: a non-success status yields success=false with the message
determined by the status code (401, 403, 404, generic fallback), whatever
the body holds; a success status whose body parses to an object with a
nested data object yields success=true, message Valid, and the identity
fields read from that data object (absent fields read as undefined).
The function is total, so it never throws. -/
theorem validateCredentials_response_spec (name : String)
    (credentials : Credentials) (status : Nat) :
    (∀ body, statusOk status = false →
      validateCredentials name credentials
          (FetchOutcome.response status body) =
        { name := name, success := false,
          message :=
            if status = 401 then "Unauthorized - Invalid or expired token"
            else if status = 403 then
              "Forbidden - Token lacks required permissions"
            else if status = 404 then
              "Not found - Check if the URL is correct"
            else "HTTP " ++ toString status,
          user := none })
    ∧ (∀ fields ufields, statusOk status = true →
        objGet fields "data" = some (Js.obj ufields) →
        validateCredentials name credentials
            (FetchOutcome.response status
              (BodyOutcome.parsed (Js.obj fields))) =
          { name := name, success := true, message := "Valid",
            user := some
              { id := (objGet ufields "id").getD Js.jsUndefined,
                email := (objGet ufields "email").getD Js.jsUndefined,
                first_name := (objGet ufields "first_name").getD Js.jsUndefined,
                last_name := (objGet ufields "last_name").getD Js.jsUndefined } }) := by
  constructor
  · intro body hs
    simp [validateCredentials, hs, statusMessage]
  · intro fields ufields hs hdata
    simp [validateCredentials, hs, extractUser, Js.getProp, hdata]

/-- Witness for claim C6: a 401 response yields the unauthorized message,
and a 200 response with body data object yields the extracted identity. -/
theorem validateCredentials_response_spec_witness :
    validateCredentials "a" { url := "u", token := "t" }
        (FetchOutcome.response 401 (BodyOutcome.parsed Js.jsNull)) =
      { name := "a", success := false,
        message := "Unauthorized - Invalid or expired token", user := none }
    ∧ validateCredentials "a" { url := "u", token := "t" }
        (FetchOutcome.response 200 (BodyOutcome.parsed
          (Js.obj [("data",
            Js.obj [("id", Js.str "1"), ("email", Js.str "e")])]))) =
      { name := "a", success := true, message := "Valid",
        user := some { id := Js.str "1", email := Js.str "e",
                       first_name := Js.jsUndefined, last_name := Js.jsUndefined } } := by
  constructor
  · have h := (validateCredentials_response_spec "a"
        { url := "u", token := "t" } 401).1
        (BodyOutcome.parsed Js.jsNull) (by decide)
    simpa using h
  · have h := (validateCredentials_response_spec "a"
        { url := "u", token := "t" } 200).2
        [("data", Js.obj [("id", Js.str "1"), ("email", Js.str "e")])]
        [("id", Js.str "1"), ("email", Js.str "e")] (by decide) rfl
    simpa [objGet] using h

/-- Claim C7: a fetch that raises an Error yields success=false and never
propagates; the message is chosen by substring inspection of the error
text, the checks applied in the order of the source, a text matching none
of them returned verbatim. -/
theorem validateCredentials_network_error_spec (name : String)
    (credentials : Credentials) (m : String) :
    (validateCredentials name credentials
        (FetchOutcome.throws (some m))).success = false
    ∧ (validateCredentials name credentials
        (FetchOutcome.throws (some m))).name = name
    ∧ ("ECONNREFUSED".data <:+: m.data →
        (validateCredentials name credentials
            (FetchOutcome.throws (some m))).message =
          "Connection refused - Server may be down")
    ∧ (¬ "ECONNREFUSED".data <:+: m.data → "ENOTFOUND".data <:+: m.data →
        (validateCredentials name credentials
            (FetchOutcome.throws (some m))).message =
          "Host not found - Check the URL")
    ∧ (¬ "ECONNREFUSED".data <:+: m.data → ¬ "ENOTFOUND".data <:+: m.data →
        "ETIMEDOUT".data <:+: m.data →
        (validateCredentials name credentials
            (FetchOutcome.throws (some m))).message = "Connection timed out")
    ∧ (¬ "ECONNREFUSED".data <:+: m.data → ¬ "ENOTFOUND".data <:+: m.data →
        ¬ "ETIMEDOUT".data <:+: m.data → "certificate".data <:+: m.data →
        (validateCredentials name credentials
            (FetchOutcome.throws (some m))).message = "SSL certificate error")
    ∧ (¬ "ECONNREFUSED".data <:+: m.data → ¬ "ENOTFOUND".data <:+: m.data →
        ¬ "ETIMEDOUT".data <:+: m.data → ¬ "certificate".data <:+: m.data →
        (validateCredentials name credentials
            (FetchOutcome.throws (some m))).message = m) := by
  have hmsg : (validateCredentials name credentials
      (FetchOutcome.throws (some m))).message = classifyError m := rfl
  refine ⟨rfl, rfl, ?_, ?_, ?_, ?_, ?_⟩
  · intro h1
    rw [hmsg, classifyError, if_pos ((strContains_correct m _).mpr h1)]
  · intro h1 h2
    rw [hmsg, classifyError,
      if_neg (fun hh => h1 ((strContains_correct m _).mp hh)),
      if_pos ((strContains_correct m _).mpr h2)]
  · intro h1 h2 h3
    rw [hmsg, classifyError,
      if_neg (fun hh => h1 ((strContains_correct m _).mp hh)),
      if_neg (fun hh => h2 ((strContains_correct m _).mp hh)),
      if_pos ((strContains_correct m _).mpr h3)]
  · intro h1 h2 h3 h4
    rw [hmsg, classifyError,
      if_neg (fun hh => h1 ((strContains_correct m _).mp hh)),
      if_neg (fun hh => h2 ((strContains_correct m _).mp hh)),
      if_neg (fun hh => h3 ((strContains_correct m _).mp hh)),
      if_pos ((strContains_correct m _).mpr h4)]
  · intro h1 h2 h3 h4
    rw [hmsg, classifyError,
      if_neg (fun hh => h1 ((strContains_correct m _).mp hh)),
      if_neg (fun hh => h2 ((strContains_correct m _).mp hh)),
      if_neg (fun hh => h3 ((strContains_correct m _).mp hh)),
      if_neg (fun hh => h4 ((strContains_correct m _).mp hh))]

/-- Witness for claim C7: a connection-refused transport error maps to the
server-may-be-down message. -/
theorem validateCredentials_network_error_spec_witness :
    (validateCredentials "a" { url := "u", token := "t" }
        (FetchOutcome.throws (some "connect ECONNREFUSED 127.0.0.1:8055"))).message
      = "Connection refused - Server may be down" :=
  (validateCredentials_network_error_spec "a" { url := "u", token := "t" }
      "connect ECONNREFUSED 127.0.0.1:8055").2.2.1
    ((strContains_correct "connect ECONNREFUSED 127.0.0.1:8055"
        "ECONNREFUSED").mp (by decide))

/-- Claim C8: validateAllCredentials returns one result per entry of the
input mapping, each carrying its entry name, in the input iteration order;
Promise.all collects positionally, so the completion order of the
underlying requests cannot change the output order, and the function is
total, so the aggregate call itself never fails. -/
theorem validateAllCredentials_spec
    (env : String → Credentials → FetchOutcome)
    (credentialsMap : List (String × Credentials)) :
    (validateAllCredentials env credentialsMap).length = credentialsMap.length
    ∧ (validateAllCredentials env credentialsMap).map ValidationResult.name
        = credentialsMap.map Prod.fst := by
  constructor
  · simp [validateAllCredentials]
  · rw [validateAllCredentials, List.map_map]
    apply List.map_congr_left
    intro e he
    exact validateCredentials_name e.1 e.2 (env e.1 e.2)

/-- Claim C10 counterexample: a success response whose body parses to an
object whose data field is the number 5 - a malformed body carrying no
nested data object - raises nothing in JavaScript (property access on a
number yields undefined), so validateCredentials returns success=true with
message Valid, contradicting the claim that such a body produces a caught
field-access error and never yields success=true. -/
theorem validateCredentials_malformed_counterexample :
    (validateCredentials "a" { url := "u", token := "t" }
        (FetchOutcome.response 200
          (BodyOutcome.parsed (Js.obj [("data", Js.num 5)])))).success = true
    ∧ (validateCredentials "a" { url := "u", token := "t" }
        (FetchOutcome.response 200
          (BodyOutcome.parsed (Js.obj [("data", Js.num 5)])))).message
        = "Valid" :=
  ⟨rfl, rfl⟩

/-- Claim C10 (amended): on a success status, a body that fails JSON
parsing, or a parsed body whose data-field extraction raises (reading a
property of null or undefined), lands in the catch branch and produces
success=false carrying the caught message run through the same substring
classification as network errors; the function is total, so the caller
never observes a thrown exception.  A parsed body whose data field is a
non-null primitive or an array raises nothing and yields success=true with
undefined identity fields, as the counterexample shows. -/
theorem validateCredentials_bad_body_spec (name : String)
    (credentials : Credentials) (status : Nat)
    (hs : statusOk status = true) :
    (∀ m, validateCredentials name credentials
        (FetchOutcome.response status (BodyOutcome.invalid m)) =
      { name := name, success := false, message := classifyError m,
        user := none })
    ∧ (∀ j e, extractUser j = Except.error e →
        validateCredentials name credentials
            (FetchOutcome.response status (BodyOutcome.parsed j)) =
          { name := name, success := false, message := classifyError e,
            user := none }) := by
  constructor
  · intro m
    simp [validateCredentials, hs]
  · intro j e hx
    simp [validateCredentials, hs, hx]

/-- Witness for claim C10: a 200 response with body null makes the access
data.data raise, and the caught message is returned with success=false. -/
theorem validateCredentials_bad_body_spec_witness :
    validateCredentials "a" { url := "u", token := "t" }
        (FetchOutcome.response 200 (BodyOutcome.parsed Js.jsNull)) =
      { name := "a", success := false,
        message := "Cannot read properties of null (reading data)",
        user := none } := by
  have h := (validateCredentials_bad_body_spec "a" { url := "u", token := "t" }
      200 (by decide)).2 Js.jsNull
      "Cannot read properties of null (reading data)" rfl
  rw [h]
  have hcl : classifyError "Cannot read properties of null (reading data)" =
      "Cannot read properties of null (reading data)" := by decide
  rw [hcl]
